import Mathlib

/-!
Verification of the MySQL connection-pool adapter (src/db/mysql-adapter.ts).

The adapter is shallowly embedded: its mutable fields become an `Adapter`
record, each method becomes a function in a hand-rolled state monad `M`
threading the adapter state, a time-indexed `World` oracle answering the
external calls (mysql2 pool construction, pool.query, pool.execute,
pool.end, AWS RDS signer token requests), and a trace of the external
calls made.  Every `throw new Error(msg)` site in the source becomes one
constructor of `Err`; `errMessage` rebuilds the JavaScript message string.
-/

deriving instance DecidableEq for Except

namespace MysqlAdapter

/-- JavaScript-style rows (content is irrelevant to the adapter logic). -/
abbrev Row := String

/-- Query parameters passed through to the driver. -/
abbrev Param := String

/-- The value a driver call resolves with: an array of rows (`Array.isArray`
true) or a result-header object such as an OkPacket (`Array.isArray` false),
whose `affectedRows` / `insertId` fields may be absent. -/
inductive JsResult where
  | arr (rows : List Row)
  | obj (affectedRows : Option Int) (insertId : Option Int)
  deriving DecidableEq, Repr

/-- The `port` field of the constructor input: absent, a number, or a string. -/
inductive PortInput where
  | none
  | num (n : Int)
  | str (s : String)
  deriving DecidableEq, Repr

/-- The `ssl` field of the constructor input: absent, a boolean, or an
object/string passed through verbatim (kept opaque). -/
inductive SslInput where
  | none
  | bool (b : Bool)
  | obj (o : String)
  deriving DecidableEq, Repr

/-- The `ssl` entry the constructor stores into `this.config`. -/
inductive SslCfg where
  | unset
  | passthrough (o : String)
  | rejectUnauthorizedFalse
  | emptyObj
  deriving DecidableEq, Repr

/-- The argument object of the `MysqlAdapter` constructor. -/
structure ConnectionInfo where
  host : String
  database : String
  user : Option String
  password : Option String
  port : PortInput
  ssl : SslInput
  connectionTimeout : Option Int
  awsIamAuth : Option Bool
  awsRegion : Option String
  deriving DecidableEq, Repr

/-- `this.config` as built by the constructor (a `mysql.PoolOptions`). -/
structure PoolOptions where
  host : String
  database : String
  port : Int
  user : Option String
  password : Option String
  connectTimeout : Int
  multipleStatements : Bool
  waitForConnections : Bool
  connectionLimit : Int
  maxIdle : Int
  idleTimeout : Int
  queueLimit : Int
  enableKeepAlive : Bool
  keepAliveInitialDelay : Int
  ssl : SslCfg
  deriving DecidableEq, Repr

/-- A live pool handle: the options it was created with plus a creation
generation number distinguishing successive pools of one adapter. -/
structure Pool where
  opts : PoolOptions
  gen : Nat
  deriving DecidableEq, Repr

/-- The adapter's instance fields. -/
structure Adapter where
  pool : Option Pool
  config : PoolOptions
  host : String
  database : String
  awsIamAuth : Bool
  awsRegion : Option String
  deriving DecidableEq, Repr

/-- One constructor per `throw new Error(...)` site of the source, plus
`driver` for errors raised by the external collaborators themselves. -/
inductive Err where
  | invalidPort (s : String)
  | awsRegionRequired
  | awsUsernameRequired
  | authTokenFailed (causeMsg : String)
  | iamAuthInner (causeMsg : String)
  | connectIam (causeMsg : String)
  | connect (causeMsg : String)
  | queryErr (causeMsg : String)
  | batchErr (causeMsg : String)
  | nullPoolAccess
  | driver (msg : String)
  deriving DecidableEq, Repr

/-- `(err as Error).message` for each throw site, mirroring the template
strings of the source. -/
def errMessage : Err → String
  | Err.invalidPort s => "Invalid port value for MySQL: " ++ s
  | Err.awsRegionRequired => "AWS region is required for IAM authentication"
  | Err.awsUsernameRequired => "AWS username is required for IAM authentication"
  | Err.authTokenFailed m =>
      "AWS IAM authentication failed: " ++ m ++
        ". Please check your AWS credentials and IAM permissions."
  | Err.iamAuthInner m => "AWS IAM authentication failed: " ++ m
  | Err.connectIam m =>
      "Failed to connect to MySQL with AWS IAM authentication: " ++ m ++
        ". Please verify your AWS credentials, IAM permissions, and RDS configuration."
  | Err.connect m => "Failed to connect to MySQL: " ++ m
  | Err.queryErr m => "MySQL query error: " ++ m
  | Err.batchErr m => "MySQL batch error: " ++ m
  | Err.nullPoolAccess => "Cannot read properties of null"
  | Err.driver m => m

/-- JavaScript `parseInt(s, 10)`: skip leading whitespace, optional sign,
longest leading digit run; `none` models `NaN`. -/
def jsParseInt (s : String) : Option Int :=
  let cs := s.data.dropWhile (fun c => c = ' ' ∨ c = '\t' ∨ c = '\n' ∨ c = '\r')
  let signed : Bool × List Char :=
    match cs with
    | '-' :: rest => (true, rest)
    | '+' :: rest => (false, rest)
    | _ => (false, cs)
  let ds := signed.2.takeWhile Char.isDigit
  if ds.isEmpty then Option.none
  else
    let n : Nat := ds.foldl (fun acc c => acc * 10 + (c.toNat - 48)) 0
    Option.some (if signed.1 then -(n : Int) else (n : Int))

/-- JavaScript `x || d` on an optional number (absent and `0` are falsy). -/
def jsOrNum (x : Option Int) (d : Int) : Int :=
  match x with
  | Option.none => d
  | Option.some v => if v = 0 then d else v

/-- JavaScript `x || d` on an `Int` (only `0` is falsy). -/
def jsOrInt (x : Int) (d : Int) : Int :=
  if x = 0 then d else x

/-- JavaScript truthiness of an optional string (absent and `""` are falsy). -/
def jsTruthyStr : Option String → Bool
  | Option.none => false
  | Option.some s => !(s = "")

/-- Substring search over character lists (structural recursion, so the
kernel can evaluate it). -/
def hasSubstring (needle : List Char) : List Char → Bool
  | [] => needle.isEmpty
  | c :: rest => needle.isPrefixOf (c :: rest) || hasSubstring needle rest

/-- `haystack.includes(needle)`. -/
def strIncludes (hay needle : String) : Bool :=
  hasSubstring needle.data hay.data

/-- The `MysqlAdapter` constructor (source lines 16-70).  Builds the pool
configuration with fixed pool-tuning defaults, resolves `ssl`, and
validates/coerces `port`, throwing on a non-numeric port value. -/
def mkAdapter (ci : ConnectionInfo) : Except Err Adapter :=
  let awsIamAuth := (ci.awsIamAuth.getD false)
  let basePort : Int :=
    match ci.port with
    | PortInput.none => 3306
    | PortInput.num n => jsOrInt n 3306
    | PortInput.str s => if s = "" then 3306 else 0
  let sslCfg : SslCfg :=
    match ci.ssl with
    | SslInput.obj o => SslCfg.passthrough o
    | SslInput.bool true =>
        if awsIamAuth then SslCfg.rejectUnauthorizedFalse else SslCfg.emptyObj
    | SslInput.bool false => SslCfg.unset
    | SslInput.none => SslCfg.unset
  let config0 : PoolOptions :=
    { host := ci.host
      database := ci.database
      port := basePort
      user := ci.user
      password := ci.password
      connectTimeout := jsOrNum ci.connectionTimeout 30000
      multipleStatements := true
      waitForConnections := true
      connectionLimit := 5
      maxIdle := 5
      idleTimeout := 30000
      queueLimit := 0
      enableKeepAlive := true
      keepAliveInitialDelay := 5000
      ssl := sslCfg }
  let validated : Except Err PoolOptions :=
    match ci.port with
    | PortInput.str s =>
        if s = "" then Except.ok config0
        else
          match jsParseInt s with
          | Option.none => Except.error (Err.invalidPort s)
          | Option.some n => Except.ok { config0 with port := n }
    | _ => Except.ok config0
  match validated with
  | Except.error e => Except.error e
  | Except.ok cfg =>
      Except.ok
        { pool := Option.none
          config := cfg
          host := ci.host
          database := ci.database
          awsIamAuth := awsIamAuth
          awsRegion := ci.awsRegion }

/-- One external call, as recorded in the trace.  `query`, `execute`,
`endPool` and `getAuthToken` reach the network; `createPool` constructs the
driver pool object. -/
inductive Call where
  | createPool (opts : PoolOptions)
  | query (p : Pool) (sql : String)
  | execute (p : Pool) (sql : String) (params : List Param)
  | endPool (p : Pool)
  | getAuthToken (region : String) (hostname : String) (port : Int) (username : String)
  deriving DecidableEq, Repr

/-- The environment: how each kind of external call responds, as a function
of the global call index (the n-th external call of the run has index n). -/
structure World where
  onCreatePool : Nat → Except String Unit
  onQuery : Nat → Except String JsResult
  onExecute : Nat → Except String JsResult
  onEnd : Nat → Except String Unit
  onToken : Nat → Except String String

/-- Full interpreter state: adapter fields, environment, global call index,
next pool generation, and the trace of external calls made so far. -/
structure St where
  ad : Adapter
  world : World
  time : Nat
  nextGen : Nat
  calls : List Call

/-- The effect monad: state passing plus JavaScript-style exceptions. -/
def M (α : Type) : Type := St → Except Err α × St

def pureM {α : Type} (a : α) : M α := fun s => (Except.ok a, s)

def bindM {α β : Type} (x : M α) (f : α → M β) : M β := fun s =>
  match x s with
  | (Except.ok a, s') => f a s'
  | (Except.error e, s') => (Except.error e, s')

def throwM {α : Type} (e : Err) : M α := fun s => (Except.error e, s)

/-- `try x catch err { handler err }`. -/
def catchM {α : Type} (x : M α) (handler : Err → M α) : M α := fun s =>
  match x s with
  | (Except.ok a, s') => (Except.ok a, s')
  | (Except.error e, s') => handler e s'

def getAdapter : M Adapter := fun s => (Except.ok s.ad, s)

def setPool (p : Option Pool) : M Unit := fun s =>
  (Except.ok (), { s with ad := { s.ad with pool := p } })

/-- `mysql.createPool(opts)`: records the call, mints a fresh handle. -/
def callCreatePool (opts : PoolOptions) : M Pool := fun s =>
  let t := s.time
  let g := s.nextGen
  let s' := { s with
    time := t + 1
    nextGen := g + 1
    calls := s.calls ++ [Call.createPool opts] }
  match s.world.onCreatePool t with
  | Except.ok _ => (Except.ok { opts := opts, gen := g }, s')
  | Except.error m => (Except.error (Err.driver m), s')

/-- `pool.query(sql)`. -/
def callQuery (p : Pool) (sql : String) : M JsResult := fun s =>
  let t := s.time
  let s' := { s with time := t + 1, calls := s.calls ++ [Call.query p sql] }
  match s.world.onQuery t with
  | Except.ok v => (Except.ok v, s')
  | Except.error m => (Except.error (Err.driver m), s')

/-- `pool.execute(sql, params)`. -/
def callExecute (p : Pool) (sql : String) (params : List Param) : M JsResult := fun s =>
  let t := s.time
  let s' := { s with time := t + 1, calls := s.calls ++ [Call.execute p sql params] }
  match s.world.onExecute t with
  | Except.ok v => (Except.ok v, s')
  | Except.error m => (Except.error (Err.driver m), s')

/-- `pool.end()`. -/
def callEnd (p : Pool) : M Unit := fun s =>
  let t := s.time
  let s' := { s with time := t + 1, calls := s.calls ++ [Call.endPool p] }
  match s.world.onEnd t with
  | Except.ok _ => (Except.ok (), s')
  | Except.error m => (Except.error (Err.driver m), s')

/-- `new Signer({...}).getAuthToken()`. -/
def callToken (region hostname : String) (port : Int) (username : String) : M String := fun s =>
  let t := s.time
  let s' := { s with
    time := t + 1
    calls := s.calls ++ [Call.getAuthToken region hostname port username] }
  match s.world.onToken t with
  | Except.ok tok => (Except.ok tok, s')
  | Except.error m => (Except.error (Err.driver m), s')

/-- `this.pool!.execute(sql, params)` (non-null assertion). -/
def executeOnPool (sql : String) (params : List Param) : M JsResult :=
  bindM getAdapter (fun ad =>
    match ad.pool with
    | Option.some p => callExecute p sql params
    | Option.none => throwM Err.nullPoolAccess)

/-- `this.pool!.query(sql)` (non-null assertion). -/
def queryOnPool (sql : String) : M JsResult :=
  bindM getAdapter (fun ad =>
    match ad.pool with
    | Option.some p => callQuery p sql
    | Option.none => throwM Err.nullPoolAccess)

/-- `generateAwsAuthToken` (source lines 75-101): validates region and
username (JavaScript truthiness), then asks the signer for a token,
wrapping a signer failure. -/
def generateAwsAuthToken : M String :=
  bindM getAdapter (fun ad =>
    match ad.awsRegion with
    | Option.none => throwM Err.awsRegionRequired
    | Option.some region =>
      if region = "" then throwM Err.awsRegionRequired
      else
        match ad.config.user with
        | Option.none => throwM Err.awsUsernameRequired
        | Option.some user =>
          if user = "" then throwM Err.awsUsernameRequired
          else
            catchM
              (callToken region ad.host (jsOrInt ad.config.port 3306) user)
              (fun e => throwM (Err.authTokenFailed (errMessage e))))

/-- `init` (source lines 106-143): with IAM auth, generate a token and build
the pool from a derived config carrying the token as password (wrapping a
failure of that step); otherwise build the pool from the stored config.
Then probe the new pool with `SELECT 1`.  Any failure is wrapped into the
fatal connect error and the adapter fields are left as they are. -/
def init : M Unit :=
  catchM
    (bindM getAdapter (fun ad =>
      bindM
        (if ad.awsIamAuth then
          catchM
            (bindM generateAwsAuthToken (fun authToken =>
              bindM (callCreatePool { ad.config with password := Option.some authToken })
                (fun p => bindM (setPool (Option.some p)) (fun _ => pureM p))))
            (fun e => throwM (Err.iamAuthInner (errMessage e)))
        else
          bindM (callCreatePool ad.config)
            (fun p => bindM (setPool (Option.some p)) (fun _ => pureM p)))
        (fun p => bindM (callQuery p "SELECT 1") (fun _ => pureM ()))))
    (fun e =>
      bindM getAdapter (fun ad =>
        if ad.awsIamAuth then throwM (Err.connectIam (errMessage e))
        else throwM (Err.connect (errMessage e))))

/-- `ensureConnection` (source lines 148-172): a null pool runs `init`;
otherwise probe with `SELECT 1`; on probe failure, best-effort `end` of the
old pool (failure swallowed), clear the handle, and `init` from scratch. -/
def ensureConnection : M Unit :=
  bindM getAdapter (fun ad =>
    match ad.pool with
    | Option.none => init
    | Option.some p =>
      catchM
        (bindM (callQuery p "SELECT 1") (fun _ => pureM ()))
        (fun _e =>
          bindM (catchM (callEnd p) (fun _closeErr => pureM ()))
            (fun _ => bindM (setPool Option.none) (fun _ => init))))

/-- `Array.isArray(rows) ? rows : []`. -/
def normalizeRows : JsResult → List Row
  | JsResult.arr rows => rows
  | JsResult.obj _ _ => []

/-- Does the message carry a transient-disconnect signature? -/
def isTransientMsg (m : String) : Bool :=
  strIncludes m "closed" || strIncludes m "PROTOCOL_CONNECTION_LOST"

/-- `all` (source lines 177-196): ensure the pool, execute, normalize; on a
transient-disconnect failure, repair once and retry (the retry result or
failure propagates as is); wrap any other failure as a query error. -/
def all (query : String) (params : List Param) : M (List Row) :=
  bindM ensureConnection (fun _ =>
    catchM
      (bindM (executeOnPool query params) (fun r => pureM (normalizeRows r)))
      (fun err =>
        let errorMsg := errMessage err
        if isTransientMsg errorMsg then
          bindM ensureConnection (fun _ =>
            bindM (executeOnPool query params) (fun r => pureM (normalizeRows r)))
        else throwM (Err.queryErr errorMsg)))

/-- The record `run` returns: `{ changes, lastID }`. -/
structure RunResult where
  changes : Int
  lastID : Int
  deriving DecidableEq, Repr

/-- `result.affectedRows || 0` and `result.insertId || 0` on the driver
result (absent fields and `0` are falsy; an array result has neither). -/
def runResultOf : JsResult → RunResult
  | JsResult.arr _ => { changes := 0, lastID := 0 }
  | JsResult.obj a i => { changes := jsOrNum a 0, lastID := jsOrNum i 0 }

/-- `run` (source lines 201-224): same shape as `all`, reading
`affectedRows`/`insertId` with `|| 0` defaults. -/
def run (query : String) (params : List Param) : M RunResult :=
  bindM ensureConnection (fun _ =>
    catchM
      (bindM (executeOnPool query params) (fun r => pureM (runResultOf r)))
      (fun err =>
        let errorMsg := errMessage err
        if isTransientMsg errorMsg then
          bindM ensureConnection (fun _ =>
            bindM (executeOnPool query params) (fun r => pureM (runResultOf r)))
        else throwM (Err.queryErr errorMsg)))

/-- `exec` (source lines 229-247): same retry shape over `pool.query`,
wrapping a non-transient failure as a batch error. -/
def exec (query : String) : M Unit :=
  bindM ensureConnection (fun _ =>
    catchM
      (bindM (queryOnPool query) (fun _ => pureM ()))
      (fun err =>
        let errorMsg := errMessage err
        if isTransientMsg errorMsg then
          bindM ensureConnection (fun _ =>
            bindM (queryOnPool query) (fun _ => pureM ()))
        else throwM (Err.batchErr errorMsg)))

/-- `close` (source lines 252-257): `end` the pool if there is one, then
clear the handle; with no pool it is a no-op. -/
def close : M Unit :=
  bindM getAdapter (fun ad =>
    match ad.pool with
    | Option.none => pureM ()
    | Option.some p => bindM (callEnd p) (fun _ => setPool Option.none))

/-- Initial interpreter state for an adapter in a given environment. -/
def mkSt (ad : Adapter) (w : World) : St :=
  { ad := ad, world := w, time := 0, nextGen := 0, calls := [] }

/-- Calls that reach the network (everything except pool construction). -/
def isNetworkCall : Call → Bool
  | Call.createPool _ => false
  | _ => true

def countExecutes (cs : List Call) : Nat :=
  (cs.filter (fun c => match c with | Call.execute _ _ _ => true | _ => false)).length

def countCreates (cs : List Call) : Nat :=
  (cs.filter (fun c => match c with | Call.createPool _ => true | _ => false)).length

def countProbes (cs : List Call) : Nat :=
  (cs.filter (fun c => match c with | Call.query _ _ => true | _ => false)).length

def countTokens (cs : List Call) : Nat :=
  (cs.filter (fun c => match c with | Call.getAuthToken _ _ _ _ => true | _ => false)).length

/-- The password of each constructed pool, in construction order. -/
def createdPasswords (cs : List Call) : List (Option String) :=
  cs.filterMap (fun c => match c with
    | Call.createPool o => Option.some o.password
    | _ => Option.none)

/-- Is the result a wrapped `MySQL query error`? -/
def isWrappedQueryErr {α : Type} : Except Err α → Bool
  | Except.error (Err.queryErr _) => true
  | _ => false

/-- An environment in which every external call succeeds. -/
def okWorld : World :=
  { onCreatePool := fun _ => Except.ok ()
    onQuery := fun _ => Except.ok (JsResult.arr [])
    onExecute := fun _ => Except.ok (JsResult.arr [])
    onEnd := fun _ => Except.ok ()
    onToken := fun _ => Except.ok "TOK" }

/-- Pool options as the constructor builds them for
`{host:"db.example.com", database:"app", user:"root", password:"x"}`. -/
def sampleOpts : PoolOptions :=
  { host := "db.example.com"
    database := "app"
    port := 3306
    user := Option.some "root"
    password := Option.some "x"
    connectTimeout := 30000
    multipleStatements := true
    waitForConnections := true
    connectionLimit := 5
    maxIdle := 5
    idleTimeout := 30000
    queueLimit := 0
    enableKeepAlive := true
    keepAliveInitialDelay := 5000
    ssl := SslCfg.unset }

/-- A non-IAM adapter over `sampleOpts`, not yet initialized. -/
def sampleAdapter : Adapter :=
  { pool := Option.none
    config := sampleOpts
    host := "db.example.com"
    database := "app"
    awsIamAuth := false
    awsRegion := Option.none }

/-- A live pool handle for `sampleAdapter`. -/
def samplePool : Pool := { opts := sampleOpts, gen := 37 }

/-- `sampleAdapter` with its pool bound (a healthy, initialized adapter). -/
def healthyAdapter : Adapter := { sampleAdapter with pool := Option.some samplePool }

/-- Environment for the query-retry scenarios on a healthy adapter: probes
succeed, the first `execute` (call index 1) fails with message `m1`, every
later `execute` responds `r2`. -/
def retryWorld (m1 : String) (r2 : Except String JsResult) : World :=
  { onCreatePool := fun _ => Except.ok ()
    onQuery := fun _ => Except.ok (JsResult.arr [])
    onExecute := fun t => if t ≤ 1 then Except.error m1 else r2
    onEnd := fun _ => Except.ok ()
    onToken := fun _ => Except.ok "TOK" }

/-- Environment in which pool construction itself fails with message `m`. -/
def createFailWorld (m : String) : World :=
  { okWorld with onCreatePool := fun _ => Except.error m }

/-- Environment in which every probe/query fails with message `m` (pool
construction succeeds). -/
def probeFailWorld (m : String) : World :=
  { okWorld with onQuery := fun _ => Except.error m }

/-- Environment in which the signer rejects the token request with `m`. -/
def tokenFailWorld (m : String) : World :=
  { okWorld with onToken := fun _ => Except.error m }

/-- The effective port of a successful construction. -/
def portOf : Except Err Adapter → Option Int
  | Except.ok a => Option.some a.config.port
  | Except.error _ => Option.none

/-- Environment whose `execute` resolves with a non-array result header. -/
def objWorld : World :=
  { okWorld with
    onExecute := fun _ => Except.ok (JsResult.obj (Option.some 5) Option.none) }

/-- Environment whose `execute` reports `affectedRows:1, insertId:42`. -/
def insertWorld : World :=
  { okWorld with
    onExecute := fun _ => Except.ok (JsResult.obj (Option.some 1) (Option.some 42)) }

/-- C7: port handling at construction — whatever the other constructor
fields are, an omitted port defaults to 3306, the numeric string "3307" is
coerced to the integer 3307, and the non-numeric string "abc" makes the
constructor throw the invalid-port error (construction is pure, so it fails
before any connection attempt). -/
theorem mkAdapter_port_handling (ci : ConnectionInfo) :
    portOf (mkAdapter { ci with port := PortInput.none }) = Option.some 3306 ∧
    portOf (mkAdapter { ci with port := PortInput.str "3307" }) = Option.some 3307 ∧
    mkAdapter { ci with port := PortInput.str "abc" } =
      Except.error (Err.invalidPort "abc") := by
  refine ⟨rfl, ?_, ?_⟩ <;>
    simp [mkAdapter, portOf, jsParseInt]

/-- C8: a successful `all` returns the normalized driver rows: an array
result is returned as is, and a non-array result is normalized to the empty
list — the result is by construction a list, never null. -/
theorem all_normalizes_rows (s : St) (p : Pool) (q : String) (ps : List Param)
    (pv v : JsResult)
    (hp : s.ad.pool = Option.some p)
    (hprobe : s.world.onQuery s.time = Except.ok pv)
    (hexec : s.world.onExecute (s.time + 1) = Except.ok v) :
    (all q ps s).1 = Except.ok (normalizeRows v) ∧
    (∀ a i, normalizeRows (JsResult.obj a i) = []) ∧
    (∀ rows, normalizeRows (JsResult.arr rows) = rows) := by
  refine ⟨?_, fun a i => rfl, fun rows => rfl⟩
  simp [all, ensureConnection, executeOnPool, callExecute, callQuery,
    bindM, pureM, catchM, getAdapter, hp, hprobe, hexec]

/-- Witness for `all_normalizes_rows`: against a driver answering a
non-array result header, `all` returns the empty list. -/
theorem all_normalizes_rows_witness :
    (all "SELECT x" [] (mkSt healthyAdapter objWorld)).1 =
      Except.ok (normalizeRows (JsResult.obj (Option.some 5) Option.none)) ∧
    (∀ a i, normalizeRows (JsResult.obj a i) = []) ∧
    (∀ rows, normalizeRows (JsResult.arr rows) = rows) :=
  all_normalizes_rows (mkSt healthyAdapter objWorld) samplePool "SELECT x" []
    (JsResult.arr []) (JsResult.obj (Option.some 5) Option.none) rfl rfl rfl

/-- C9: a successful `run` maps the driver's `affectedRows` to `changes`
and `insertId` to `lastID` through the `|| 0` default, which is the
identity on present values and 0 on absent ones. -/
theorem run_maps_result (s : St) (p : Pool) (q : String) (ps : List Param)
    (pv : JsResult) (a i : Option Int)
    (hp : s.ad.pool = Option.some p)
    (hprobe : s.world.onQuery s.time = Except.ok pv)
    (hexec : s.world.onExecute (s.time + 1) = Except.ok (JsResult.obj a i)) :
    (run q ps s).1 =
      Except.ok { changes := jsOrNum a 0, lastID := jsOrNum i 0 } ∧
    jsOrNum Option.none 0 = 0 ∧
    (∀ n : Int, jsOrNum (Option.some n) 0 = n) := by
  refine ⟨?_, rfl, ?_⟩
  · simp [run, ensureConnection, executeOnPool, callExecute, callQuery,
      bindM, pureM, catchM, getAdapter, hp, hprobe, hexec, runResultOf]
  · intro n
    simp [jsOrNum]
    intro h
    exact h.symm

/-- Witness for `run_maps_result`: a driver reporting
`affectedRows:1, insertId:42` yields `{changes:1, lastID:42}`. -/
theorem run_maps_result_witness :
    (run "INSERT INTO t VALUES (1)" [] (mkSt healthyAdapter insertWorld)).1 =
      Except.ok { changes := jsOrNum (Option.some 1) 0,
                  lastID := jsOrNum (Option.some 42) 0 } ∧
    jsOrNum Option.none 0 = 0 ∧
    (∀ n : Int, jsOrNum (Option.some n) 0 = n) :=
  run_maps_result (mkSt healthyAdapter insertWorld) samplePool
    "INSERT INTO t VALUES (1)" [] (JsResult.arr [])
    (Option.some 1) (Option.some 42) rfl rfl rfl

/-- C10: `close` is idempotent and total — on a null pool it is a no-op
that succeeds and changes nothing, and after any successful `close` a
second `close` is such a no-op, so closing twice equals closing once. -/
theorem close_idempotent (s : St) :
    (s.ad.pool = Option.none → close s = (Except.ok (), s)) ∧
    ((close s).1 = Except.ok () →
      close ((close s).2) = (Except.ok (), (close s).2)) := by
  constructor
  · intro h
    simp [close, bindM, getAdapter, pureM, h]
  · intro h
    rcases hp : s.ad.pool with _ | p
    · simp [close, bindM, getAdapter, pureM, hp]
    · rcases he : s.world.onEnd s.time with m | u
      · exfalso
        simp [close, bindM, getAdapter, pureM, callEnd, setPool, hp, he] at h
      · simp [close, bindM, getAdapter, pureM, callEnd, setPool, hp, he]

/-- Witness for `close_idempotent`: a never-initialized adapter closes as a
no-op, and closing a healthy adapter twice equals closing it once. -/
theorem close_idempotent_witness :
    close (mkSt sampleAdapter okWorld) = (Except.ok (), mkSt sampleAdapter okWorld) ∧
    close ((close (mkSt healthyAdapter okWorld)).2) =
      (Except.ok (), (close (mkSt healthyAdapter okWorld)).2) :=
  ⟨(close_idempotent (mkSt sampleAdapter okWorld)).1 rfl,
   (close_idempotent (mkSt healthyAdapter okWorld)).2 rfl⟩

/-- C4: `ensureConnection` follows exactly the specified algorithm — on a
null pool it runs a full `init` on the unchanged state; on a bound pool
whose probe succeeds it is a no-op performing exactly that one probe and
nothing else (so two successive calls on a healthy pool perform exactly one
probe each and no rebuild); on a probe failure it releases the old pool
best-effort (the outcome of the release does not matter — no hypothesis on
it is needed), clears the handle and runs `init` from scratch. -/
theorem ensureConnection_algorithm (s : St) (p : Pool) (pv pv2 : JsResult) (m : String) :
    (s.ad.pool = Option.none → ensureConnection s = init s) ∧
    (s.ad.pool = Option.some p → s.world.onQuery s.time = Except.ok pv →
      ensureConnection s =
        (Except.ok (),
         { s with time := s.time + 1,
                  calls := s.calls ++ [Call.query p "SELECT 1"] })) ∧
    (s.ad.pool = Option.some p → s.world.onQuery s.time = Except.ok pv →
      s.world.onQuery (s.time + 1) = Except.ok pv2 →
      bindM ensureConnection (fun _ => ensureConnection) s =
        (Except.ok (),
         { s with time := s.time + 2,
                  calls := s.calls ++
                    [Call.query p "SELECT 1", Call.query p "SELECT 1"] })) ∧
    (s.ad.pool = Option.some p → s.world.onQuery s.time = Except.error m →
      ensureConnection s =
        init { s with ad := { s.ad with pool := Option.none },
                      time := s.time + 2,
                      calls := s.calls ++
                        [Call.query p "SELECT 1", Call.endPool p] }) := by
  refine ⟨?_, ?_, ?_, ?_⟩
  · intro h
    simp [ensureConnection, bindM, getAdapter, h]
  · intro hp hprobe
    simp [ensureConnection, bindM, getAdapter, catchM, callQuery, pureM, hp, hprobe]
  · intro hp hprobe hprobe2
    simp [ensureConnection, bindM, getAdapter, catchM, callQuery, pureM, hp,
      hprobe, hprobe2]
  · intro hp hprobe
    rcases he : s.world.onEnd (s.time + 1) with em | u <;>
      simp [ensureConnection, bindM, getAdapter, catchM, callQuery, callEnd,
        setPool, pureM, hp, hprobe, he]

/-- Witness for `ensureConnection_algorithm`: the four branches at concrete
states — uninitialized, healthy probed once, healthy probed twice, and a
failing probe followed by a rebuild. -/
theorem ensureConnection_algorithm_witness :
    (ensureConnection (mkSt sampleAdapter okWorld) = init (mkSt sampleAdapter okWorld)) ∧
    (ensureConnection (mkSt healthyAdapter okWorld) =
      (Except.ok (),
       { mkSt healthyAdapter okWorld with
           time := 1, calls := [Call.query samplePool "SELECT 1"] })) ∧
    (bindM ensureConnection (fun _ => ensureConnection) (mkSt healthyAdapter okWorld) =
      (Except.ok (),
       { mkSt healthyAdapter okWorld with
           time := 2,
           calls := [Call.query samplePool "SELECT 1", Call.query samplePool "SELECT 1"] })) ∧
    (ensureConnection (mkSt healthyAdapter (probeFailWorld "gone")) =
      init { mkSt healthyAdapter (probeFailWorld "gone") with
               ad := { healthyAdapter with pool := Option.none },
               time := 2,
               calls := [Call.query samplePool "SELECT 1", Call.endPool samplePool] }) :=
  ⟨(ensureConnection_algorithm (mkSt sampleAdapter okWorld) samplePool
      (JsResult.arr []) (JsResult.arr []) "gone").1 rfl,
   (ensureConnection_algorithm (mkSt healthyAdapter okWorld) samplePool
      (JsResult.arr []) (JsResult.arr []) "gone").2.1 rfl rfl,
   (ensureConnection_algorithm (mkSt healthyAdapter okWorld) samplePool
      (JsResult.arr []) (JsResult.arr []) "gone").2.2.1 rfl rfl rfl,
   (ensureConnection_algorithm (mkSt healthyAdapter (probeFailWorld "gone")) samplePool
      (JsResult.arr []) (JsResult.arr []) "gone").2.2.2 rfl rfl⟩

/-- An IAM adapter: `awsIamAuth:true, awsRegion:"us-east-1", user:"iam_user"`,
with a static password field present in the base configuration. -/
def iamAdapter : Adapter :=
  { pool := Option.none
    config := { sampleOpts with
      user := Option.some "iam_user", password := Option.some "staticpw" }
    host := "db.example.com"
    database := "app"
    awsIamAuth := true
    awsRegion := Option.some "us-east-1" }

/-- IAM requested but no region configured. -/
def iamNoRegionAdapter : Adapter := { sampleAdapter with awsIamAuth := true }

/-- IAM requested with a region but no username configured. -/
def iamNoUserAdapter : Adapter :=
  { sampleAdapter with
    awsIamAuth := true
    awsRegion := Option.some "us-east-1"
    config := { sampleOpts with user := Option.none } }

/-- C6: with IAM auth enabled and the region (or the username) absent,
`init` fails — surfacing the missing-region/missing-username auth-config
error inside the fatal IAM connect wrapper — and returns the state entirely
unchanged: no signer call, no pool construction, no query, nothing is added
to the call trace. -/
theorem init_iam_missing_config (s : St) (r : String) :
    (s.ad.awsIamAuth = true → s.ad.awsRegion = Option.none →
      init s =
        (Except.error (Err.connectIam
          (errMessage (Err.iamAuthInner (errMessage Err.awsRegionRequired)))), s)) ∧
    (s.ad.awsIamAuth = true → s.ad.awsRegion = Option.some r → r ≠ "" →
      s.ad.config.user = Option.none →
      init s =
        (Except.error (Err.connectIam
          (errMessage (Err.iamAuthInner (errMessage Err.awsUsernameRequired)))), s)) := by
  constructor
  · intro hiam hr
    simp [init, generateAwsAuthToken, bindM, catchM, getAdapter, throwM,
      hiam, hr]
  · intro hiam hr hrne hu
    simp [init, generateAwsAuthToken, bindM, catchM, getAdapter, throwM,
      hiam, hr, hrne, hu]

/-- Witness for `init_iam_missing_config`: the missing-region and
missing-username adapters both fail with the call trace left empty. -/
theorem init_iam_missing_config_witness :
    init (mkSt iamNoRegionAdapter okWorld) =
      (Except.error (Err.connectIam
        (errMessage (Err.iamAuthInner (errMessage Err.awsRegionRequired)))),
       mkSt iamNoRegionAdapter okWorld) ∧
    init (mkSt iamNoUserAdapter okWorld) =
      (Except.error (Err.connectIam
        (errMessage (Err.iamAuthInner (errMessage Err.awsUsernameRequired)))),
       mkSt iamNoUserAdapter okWorld) :=
  ⟨(init_iam_missing_config (mkSt iamNoRegionAdapter okWorld) "us-east-1").1 rfl rfl,
   (init_iam_missing_config (mkSt iamNoUserAdapter okWorld) "us-east-1").2 rfl rfl
     (by decide) rfl⟩

/-- Environment for the double-rebuild token scenario: the signer returns
"TOK123" to the first request and "TOK456" to every later one; the probe at
call index 3 (the `ensureConnection` probe after a successful `init`)
fails, forcing a rebuild; all other calls succeed. -/
def rebuildWorld : World :=
  { onCreatePool := fun _ => Except.ok ()
    onQuery := fun t =>
      if t = 3 then Except.error "connection closed" else Except.ok (JsResult.arr [])
    onExecute := fun _ => Except.ok (JsResult.arr [])
    onEnd := fun _ => Except.ok ()
    onToken := fun t => Except.ok (if t = 0 then "TOK123" else "TOK456") }

/-- C5: with IAM auth enabled, every run of `init` asks the signing
collaborator for a token and constructs the pool from a derived copy of the
base configuration whose password is exactly that token — the stored base
configuration is left untouched.  Since the token request is part of every
`init`, tokens are never cached across rebuilds: in the concrete
init-then-rebuild scenario the two constructed pools carry the two distinct
freshly issued tokens as passwords, never the static password field. -/
theorem init_iam_fresh_token (s : St) (r u tok : String) (pv : JsResult)
    (hiam : s.ad.awsIamAuth = true)
    (hr : s.ad.awsRegion = Option.some r) (hrne : r ≠ "")
    (hu : s.ad.config.user = Option.some u) (hune : u ≠ "")
    (htok : s.world.onToken s.time = Except.ok tok)
    (hcp : s.world.onCreatePool (s.time + 1) = Except.ok ())
    (hpr : s.world.onQuery (s.time + 2) = Except.ok pv) :
    init s =
      (Except.ok (),
       { s with
           ad := { s.ad with pool := Option.some ⟨{ s.ad.config with password := Option.some tok }, s.nextGen⟩ }
           time := s.time + 3
           nextGen := s.nextGen + 1
           calls := s.calls ++
             [Call.getAuthToken r s.ad.host (jsOrInt s.ad.config.port 3306) u,
              Call.createPool { s.ad.config with password := Option.some tok },
              Call.query ⟨{ s.ad.config with password := Option.some tok }, s.nextGen⟩ "SELECT 1"] }) ∧
    createdPasswords
      ((bindM init (fun _ => ensureConnection) (mkSt iamAdapter rebuildWorld)).2.calls) =
      [Option.some "TOK123", Option.some "TOK456"] ∧
    countTokens
      ((bindM init (fun _ => ensureConnection) (mkSt iamAdapter rebuildWorld)).2.calls) = 2 ∧
    (bindM init (fun _ => ensureConnection) (mkSt iamAdapter rebuildWorld)).2.ad.config =
      iamAdapter.config := by
  refine ⟨?_, by decide, by decide, by decide⟩
  simp [init, generateAwsAuthToken, bindM, catchM, getAdapter, throwM, pureM,
    setPool, callToken, callCreatePool, callQuery, hiam, hr, hrne, hu, hune,
    htok, hcp, hpr]

/-- Witness for `init_iam_fresh_token`: the signer returns "TOK123", and
the pool is constructed with password "TOK123", not the static password. -/
theorem init_iam_fresh_token_witness :
    init (mkSt iamAdapter rebuildWorld) =
      (Except.ok (),
       { mkSt iamAdapter rebuildWorld with
           ad := { iamAdapter with pool := Option.some ⟨{ iamAdapter.config with password := Option.some "TOK123" }, 0⟩ }
           time := 3
           nextGen := 1
           calls :=
             [Call.getAuthToken "us-east-1" "db.example.com" 3306 "iam_user",
              Call.createPool { iamAdapter.config with password := Option.some "TOK123" },
              Call.query ⟨{ iamAdapter.config with password := Option.some "TOK123" }, 0⟩ "SELECT 1"] }) ∧
    createdPasswords
      ((bindM init (fun _ => ensureConnection) (mkSt iamAdapter rebuildWorld)).2.calls) =
      [Option.some "TOK123", Option.some "TOK456"] :=
  ⟨((init_iam_fresh_token (mkSt iamAdapter rebuildWorld) "us-east-1" "iam_user"
      "TOK123" (JsResult.arr []) rfl rfl (by decide) rfl (by decide)
      rfl rfl rfl).1 : _),
   (init_iam_fresh_token (mkSt iamAdapter rebuildWorld) "us-east-1" "iam_user"
      "TOK123" (JsResult.arr []) rfl rfl (by decide) rfl (by decide)
      rfl rfl rfl).2.1⟩

/-- C1 counterexample: on a healthy adapter, `close` completes, yet the
next `all` does not fail at all — it returns rows successfully, and its run
adds network calls (probe and execute) to the trace.  There is no terminal
Closed state and no closed-adapter error in the code. -/
theorem close_then_all_counterexample :
    (close (mkSt healthyAdapter okWorld)).1 = Except.ok () ∧
    (all "SELECT * FROM t" [] ((close (mkSt healthyAdapter okWorld)).2)).1 =
      Except.ok [] ∧
    List.filter isNetworkCall
      (List.drop 1
        ((all "SELECT * FROM t" [] ((close (mkSt healthyAdapter okWorld)).2)).2.calls)) ≠
      [] := by decide

/-- C1 (amended): `close` is not terminal — after a completed `close` the
pool handle is null, and a subsequent `all` transparently re-initializes
the adapter (constructing exactly one new pool, contacting the network) and
serves the query instead of failing. -/
theorem close_not_terminal (ad : Adapter) (q : String) (ps : List Param)
    (h : ad.awsIamAuth = false) :
    (close (mkSt ad okWorld)).1 = Except.ok () ∧
    (close (mkSt ad okWorld)).2.ad.pool = Option.none ∧
    (all q ps ((close (mkSt ad okWorld)).2)).1 = Except.ok [] ∧
    countCreates ((all q ps ((close (mkSt ad okWorld)).2)).2.calls) = 1 := by
  rcases hp : ad.pool with _ | p <;>
    simp [close, all, ensureConnection, init, executeOnPool, callExecute,
      callQuery, callCreatePool, callEnd, bindM, pureM, catchM, getAdapter,
      setPool, mkSt, okWorld, countCreates, normalizeRows, h, hp]

/-- Witness for `close_not_terminal`: the healthy sample adapter, closed
and then queried again. -/
theorem close_not_terminal_witness :
    (close (mkSt healthyAdapter okWorld)).1 = Except.ok () ∧
    (close (mkSt healthyAdapter okWorld)).2.ad.pool = Option.none ∧
    (all "SELECT 1" [] ((close (mkSt healthyAdapter okWorld)).2)).1 =
      Except.ok [] ∧
    countCreates
      ((all "SELECT 1" [] ((close (mkSt healthyAdapter okWorld)).2)).2.calls) = 1 :=
  close_not_terminal healthyAdapter "SELECT 1" [] rfl

/-- C2 counterexample: when both the original attempt and the post-repair
retry fail with a transient-disconnect message, the surfaced failure is the
raw driver error, not a wrapped `MySQL query error`; only the no-third-
attempt half of the claim holds (exactly two executes). -/
theorem retry_failure_unwrapped_counterexample :
    (all "Q" []
        (mkSt healthyAdapter
          (retryWorld "Connection closed" (Except.error "Connection closed")))).1 =
      Except.error (Err.driver "Connection closed") ∧
    isWrappedQueryErr
      (all "Q" []
        (mkSt healthyAdapter
          (retryWorld "Connection closed" (Except.error "Connection closed")))).1 =
      false ∧
    countExecutes
      (all "Q" []
        (mkSt healthyAdapter
          (retryWorld "Connection closed" (Except.error "Connection closed")))).2.calls =
      2 := by decide

/-- Environment for the retry scenarios of `exec`, whose operation goes
through `pool.query` like the probes: the probe at call index 0 succeeds,
the operation's query at index 1 fails with `m1`, the repair probe at
index 2 succeeds, and the retried query at index 3 responds `r2`. -/
def execRetryWorld (m1 : String) (r2 : Except String JsResult) : World :=
  { onCreatePool := fun _ => Except.ok ()
    onQuery := fun t =>
      if t = 1 then Except.error m1
      else if t = 3 then r2
      else Except.ok (JsResult.arr [])
    onExecute := fun _ => Except.ok (JsResult.arr [])
    onEnd := fun _ => Except.ok ()
    onToken := fun _ => Except.ok "TOK" }

/-- C2 (amended): the retry policy, identical across the three query
operations `all`, `run` and `exec` — a first failure with a
transient-disconnect signature triggers one repair and exactly one retry
(two driver attempts total, a repair probe between them, no third attempt);
the retry's outcome is surfaced as is, so a second failure propagates the
raw driver error unwrapped; a non-transient first failure is not retried
and is wrapped carrying the original message — as a `MySQL query error`
for `all` and `run`, and as a `MySQL batch error` for `exec`. -/
theorem query_retry_policy (q : String) (ps : List Param) (m1 : String)
    (r2 : Except String JsResult) :
    (isTransientMsg m1 = true →
      all q ps (mkSt healthyAdapter (retryWorld m1 r2)) =
        ((match r2 with
          | Except.ok v => Except.ok (normalizeRows v)
          | Except.error m2 => Except.error (Err.driver m2)),
         { mkSt healthyAdapter (retryWorld m1 r2) with
             time := 4
             calls := [Call.query samplePool "SELECT 1",
                       Call.execute samplePool q ps,
                       Call.query samplePool "SELECT 1",
                       Call.execute samplePool q ps] })) ∧
    (isTransientMsg m1 = false →
      all q ps (mkSt healthyAdapter (retryWorld m1 r2)) =
        (Except.error (Err.queryErr m1),
         { mkSt healthyAdapter (retryWorld m1 r2) with
             time := 2
             calls := [Call.query samplePool "SELECT 1",
                       Call.execute samplePool q ps] })) ∧
    (isTransientMsg m1 = true →
      run q ps (mkSt healthyAdapter (retryWorld m1 r2)) =
        ((match r2 with
          | Except.ok v => Except.ok (runResultOf v)
          | Except.error m2 => Except.error (Err.driver m2)),
         { mkSt healthyAdapter (retryWorld m1 r2) with
             time := 4
             calls := [Call.query samplePool "SELECT 1",
                       Call.execute samplePool q ps,
                       Call.query samplePool "SELECT 1",
                       Call.execute samplePool q ps] })) ∧
    (isTransientMsg m1 = false →
      run q ps (mkSt healthyAdapter (retryWorld m1 r2)) =
        (Except.error (Err.queryErr m1),
         { mkSt healthyAdapter (retryWorld m1 r2) with
             time := 2
             calls := [Call.query samplePool "SELECT 1",
                       Call.execute samplePool q ps] })) ∧
    (isTransientMsg m1 = true →
      exec q (mkSt healthyAdapter (execRetryWorld m1 r2)) =
        ((match r2 with
          | Except.ok _ => Except.ok ()
          | Except.error m2 => Except.error (Err.driver m2)),
         { mkSt healthyAdapter (execRetryWorld m1 r2) with
             time := 4
             calls := [Call.query samplePool "SELECT 1",
                       Call.query samplePool q,
                       Call.query samplePool "SELECT 1",
                       Call.query samplePool q] })) ∧
    (isTransientMsg m1 = false →
      exec q (mkSt healthyAdapter (execRetryWorld m1 r2)) =
        (Except.error (Err.batchErr m1),
         { mkSt healthyAdapter (execRetryWorld m1 r2) with
             time := 2
             calls := [Call.query samplePool "SELECT 1",
                       Call.query samplePool q] })) := by
  refine ⟨?_, ?_, ?_, ?_, ?_, ?_⟩
  · intro h
    rcases r2 with v | m2 <;>
      simp [all, ensureConnection, executeOnPool, callExecute, callQuery,
        bindM, pureM, catchM, getAdapter, throwM, mkSt, retryWorld,
        healthyAdapter, sampleAdapter, errMessage, h]
  · intro h
    simp [all, ensureConnection, executeOnPool, callExecute, callQuery,
      bindM, pureM, catchM, getAdapter, throwM, mkSt, retryWorld,
      healthyAdapter, sampleAdapter, errMessage, h]
  · intro h
    rcases r2 with v | m2 <;>
      simp [run, ensureConnection, executeOnPool, callExecute, callQuery,
        bindM, pureM, catchM, getAdapter, throwM, mkSt, retryWorld,
        healthyAdapter, sampleAdapter, errMessage, h]
  · intro h
    simp [run, ensureConnection, executeOnPool, callExecute, callQuery,
      bindM, pureM, catchM, getAdapter, throwM, mkSt, retryWorld,
      healthyAdapter, sampleAdapter, errMessage, h]
  · intro h
    rcases r2 with v | m2 <;>
      simp [exec, ensureConnection, queryOnPool, callQuery, callEnd, setPool,
        bindM, pureM, catchM, getAdapter, throwM, mkSt, execRetryWorld,
        healthyAdapter, sampleAdapter, errMessage, h]
  · intro h
    simp [exec, ensureConnection, queryOnPool, callQuery, callEnd, setPool,
      bindM, pureM, catchM, getAdapter, throwM, mkSt, execRetryWorld,
      healthyAdapter, sampleAdapter, errMessage, h]

/-- Witness for `query_retry_policy`: for each of the three operations, a
transient first failure followed by a successful retry, and a non-transient
failure wrapped without retry. -/
theorem query_retry_policy_witness :
    all "Q" []
        (mkSt healthyAdapter
          (retryWorld "read ECONNRESET PROTOCOL_CONNECTION_LOST"
            (Except.ok (JsResult.arr ["row1"])))) =
      (Except.ok ["row1"],
       { mkSt healthyAdapter
           (retryWorld "read ECONNRESET PROTOCOL_CONNECTION_LOST"
             (Except.ok (JsResult.arr ["row1"]))) with
           time := 4
           calls := [Call.query samplePool "SELECT 1",
                     Call.execute samplePool "Q" [],
                     Call.query samplePool "SELECT 1",
                     Call.execute samplePool "Q" []] }) ∧
    all "Q" [] (mkSt healthyAdapter (retryWorld "bad sql" (Except.error "x"))) =
      (Except.error (Err.queryErr "bad sql"),
       { mkSt healthyAdapter (retryWorld "bad sql" (Except.error "x")) with
           time := 2
           calls := [Call.query samplePool "SELECT 1",
                     Call.execute samplePool "Q" []] }) ∧
    run "Q" []
        (mkSt healthyAdapter
          (retryWorld "Connection already closed"
            (Except.ok (JsResult.obj (Option.some 1) (Option.some 42))))) =
      (Except.ok { changes := 1, lastID := 42 },
       { mkSt healthyAdapter
           (retryWorld "Connection already closed"
             (Except.ok (JsResult.obj (Option.some 1) (Option.some 42)))) with
           time := 4
           calls := [Call.query samplePool "SELECT 1",
                     Call.execute samplePool "Q" [],
                     Call.query samplePool "SELECT 1",
                     Call.execute samplePool "Q" []] }) ∧
    run "Q" [] (mkSt healthyAdapter (retryWorld "bad sql" (Except.error "x"))) =
      (Except.error (Err.queryErr "bad sql"),
       { mkSt healthyAdapter (retryWorld "bad sql" (Except.error "x")) with
           time := 2
           calls := [Call.query samplePool "SELECT 1",
                     Call.execute samplePool "Q" []] }) ∧
    exec "B"
        (mkSt healthyAdapter
          (execRetryWorld "Connection already closed"
            (Except.ok (JsResult.arr [])))) =
      (Except.ok (),
       { mkSt healthyAdapter
           (execRetryWorld "Connection already closed"
             (Except.ok (JsResult.arr []))) with
           time := 4
           calls := [Call.query samplePool "SELECT 1",
                     Call.query samplePool "B",
                     Call.query samplePool "SELECT 1",
                     Call.query samplePool "B"] }) ∧
    exec "B" (mkSt healthyAdapter (execRetryWorld "bad sql" (Except.error "x"))) =
      (Except.error (Err.batchErr "bad sql"),
       { mkSt healthyAdapter (execRetryWorld "bad sql" (Except.error "x")) with
           time := 2
           calls := [Call.query samplePool "SELECT 1",
                     Call.query samplePool "B"] }) :=
  ⟨(query_retry_policy "Q" [] "read ECONNRESET PROTOCOL_CONNECTION_LOST"
      (Except.ok (JsResult.arr ["row1"]))).1 (by decide),
   (query_retry_policy "Q" [] "bad sql" (Except.error "x")).2.1 (by decide),
   (query_retry_policy "Q" [] "Connection already closed"
      (Except.ok (JsResult.obj (Option.some 1) (Option.some 42)))).2.2.1 (by decide),
   (query_retry_policy "Q" [] "bad sql" (Except.error "x")).2.2.2.1 (by decide),
   (query_retry_policy "B" [] "Connection already closed"
      (Except.ok (JsResult.arr []))).2.2.2.2.1 (by decide),
   (query_retry_policy "B" [] "bad sql" (Except.error "x")).2.2.2.2.2 (by decide)⟩

/-- C3 counterexample: when the initial `SELECT 1` probe of `init` fails,
the fatal connect error surfaces but the freshly constructed pool handle
remains assigned — a partial pool is left behind, contradicting the claim
that the pool handle is still null after any failed `init`. -/
theorem init_probe_failure_counterexample :
    (init (mkSt sampleAdapter (probeFailWorld "probe boom"))).1 =
      Except.error (Err.connect "probe boom") ∧
    (init (mkSt sampleAdapter (probeFailWorld "probe boom"))).2.ad.pool ≠
      Option.none := by decide

/-- C3 (amended): a failed `init` surfaces a fatal connect error; if
credential generation or pool construction failed, the pool handle is
still null, but if the initial probe failed, the just-constructed pool
remains assigned. -/
theorem init_failure_pool_state (m : String) :
    (init (mkSt sampleAdapter (createFailWorld m))).1 =
      Except.error (Err.connect m) ∧
    (init (mkSt sampleAdapter (createFailWorld m))).2.ad.pool = Option.none ∧
    (init (mkSt iamAdapter (tokenFailWorld m))).1 =
      Except.error (Err.connectIam
        (errMessage (Err.iamAuthInner (errMessage (Err.authTokenFailed m))))) ∧
    (init (mkSt iamAdapter (tokenFailWorld m))).2.ad.pool = Option.none ∧
    (init (mkSt sampleAdapter (probeFailWorld m))).1 =
      Except.error (Err.connect m) ∧
    (init (mkSt sampleAdapter (probeFailWorld m))).2.ad.pool =
      Option.some ⟨sampleOpts, 0⟩ := by
  refine ⟨?_, ?_, ?_, ?_, ?_, ?_⟩ <;>
    simp [init, generateAwsAuthToken, bindM, catchM, getAdapter, throwM,
      pureM, setPool, callToken, callCreatePool, callQuery, mkSt,
      createFailWorld, tokenFailWorld, probeFailWorld, okWorld,
      sampleAdapter, iamAdapter, sampleOpts, errMessage]

end MysqlAdapter
